import Mathlib

/-!
Shallow embedding of the cloud-storage anomaly detection pass
(`src/v/cloud_storage/anomalies_detector.cc`) and the scrubber
orchestrator (`src/v/archival/scrubber.cc`).

Remote calls are modelled by an oracle environment (`RemoteEnv`); the
abort source is modelled by an oracle keyed by the number of remote
operations issued so far (every remote call increments the `ops`
counter at its call site, mirroring the `++ops` statements in the
source, so the key identifies the program point of each cancellation
checkpoint).
-/

namespace CloudStorage

/-- Outcome of a remote operation, following the source enum
`cloud_storage::download_result` (success, notfound, timedout, failed). -/
inductive DownloadResult
  | success
  | notfound
  | timedout
  | failed
deriving DecidableEq, Repr

/-- Wire format of the partition manifest, following the source enum
`cloud_storage::manifest_format` (json = legacy, serde = binary). -/
inductive ManifestFormat
  | json
  | serde
deriving DecidableEq, Repr

/-- `cloud_storage::scrub_status`.  The source enumerators are
`full`, `partial`, `failed`; the middle one is named `part` here because
its source name is a Lean keyword. -/
inductive ScrubStatus
  | full
  | part
  | failed
deriving DecidableEq, Repr

/-- The fields of `cloud_storage::segment_meta` used by the detector:
offset range, kafka-offset range and timestamp range.  The spillover map
entries expose the same components
(`base_offset`, `committed_offset`, `base_kafka_offset()`,
`next_kafka_offset()`, `base_timestamp`, `max_timestamp`). -/
structure SegmentMeta where
  base_offset : Int
  committed_offset : Int
  base_kafka_offset : Int
  next_kafka_offset : Int
  base_timestamp : Int
  max_timestamp : Int
deriving DecidableEq, Repr

/-- Kinds of segment-metadata (adjacency) anomalies.  Taken from the
spec's kind set for `segment_metadata_anomalies`. -/
inductive AnomalyKind
  | offset_gap
  | offset_overlap
  | kafka_offset_inconsistency
  | timestamp_order_violation
deriving DecidableEq, Repr

/-- One recorded segment-metadata anomaly: the kind, the preceding
segment and the segment at which it was detected. -/
structure MetaAnomaly where
  kind : AnomalyKind
  previous : SegmentMeta
  at_seg : SegmentMeta
deriving DecidableEq, Repr

/-- Insertion into a value-set represented as a duplicate-free list
(the source sets deduplicate by value on `emplace`). -/
def insertUnique {α : Type} [DecidableEq α] (x : α) (s : List α) : List α :=
  if x ∈ s then s else s ++ [x]

/-- Element-wise union of two value-sets. -/
def unionUnique {α : Type} [DecidableEq α] (s t : List α) : List α :=
  t.foldl (fun acc x => insertUnique x acc) s

/-- Modelled from the spec: `scrub_segment_meta` (its definition lives in
partition-manifest code not included in this excerpt) compares a segment
`m` against the immediately preceding segment, when one is given, and
records every adjacency violation: offset contiguity (gap or illegal
overlap), kafka-offset contiguity, and timestamp monotonicity. -/
def scrub_segment_meta (m : SegmentMeta) (previous : Option SegmentMeta)
    (detected : List MetaAnomaly) : List MetaAnomaly :=
  match previous with
  | none => detected
  | some p =>
    let d1 :=
      if m.base_offset > p.committed_offset + 1 then
        insertUnique ⟨AnomalyKind.offset_gap, p, m⟩ detected
      else detected
    let d2 :=
      if m.base_offset ≤ p.committed_offset then
        insertUnique ⟨AnomalyKind.offset_overlap, p, m⟩ d1
      else d1
    let d3 :=
      if m.base_kafka_offset ≠ p.next_kafka_offset then
        insertUnique ⟨AnomalyKind.kafka_offset_inconsistency, p, m⟩ d2
      else d2
    if m.base_timestamp < p.max_timestamp then
      insertUnique ⟨AnomalyKind.timestamp_order_violation, p, m⟩ d3
    else d3

/-- `cloud_storage::anomalies`: the four accumulator fields.  Sets are
duplicate-free lists. -/
structure Anomalies where
  missing_partition_manifest : Bool := false
  missing_spillover_manifests : List SegmentMeta := []
  missing_segments : List SegmentMeta := []
  segment_metadata_anomalies : List MetaAnomaly := []
deriving DecidableEq, Repr

/-- Modelled from the spec: `anomalies::operator+=` (defined outside this
excerpt) is the element-wise union of the four fields. -/
def Anomalies.add (a b : Anomalies) : Anomalies :=
  { missing_partition_manifest :=
      a.missing_partition_manifest || b.missing_partition_manifest
    missing_spillover_manifests :=
      unionUnique a.missing_spillover_manifests b.missing_spillover_manifests
    missing_segments := unionUnique a.missing_segments b.missing_segments
    segment_metadata_anomalies :=
      unionUnique a.segment_metadata_anomalies b.segment_metadata_anomalies }

/-- Status-merge rule of `anomalies_detector::result::operator+=`:
failed absorbs everything, else the source's `partial` absorbs full,
else full. -/
def merge_status (a b : ScrubStatus) : ScrubStatus :=
  if a = ScrubStatus.failed ∨ b = ScrubStatus.failed then ScrubStatus.failed
  else if a = ScrubStatus.part ∨ b = ScrubStatus.part then ScrubStatus.part
  else ScrubStatus.full

/-- `anomalies_detector::result`. -/
structure DetectResult where
  status : ScrubStatus := ScrubStatus.full
  detected : Anomalies := {}
  ops : Nat := 0
deriving DecidableEq, Repr

/-- `anomalies_detector::result::operator+=`. -/
def DetectResult.add (r o : DetectResult) : DetectResult :=
  { status := merge_status r.status o.status
    detected := r.detected.add o.detected
    ops := r.ops + o.ops }

/-- A (partition or spillover) manifest: its ordered segment list and its
spillover map, each spillover descriptor being recorded by its range
components. -/
structure Manifest where
  segments : List SegmentMeta := []
  spillover_map : List SegmentMeta := []
deriving DecidableEq, Repr

/-- `partition_manifest::empty`. -/
def Manifest.isEmptyM (m : Manifest) : Bool := m.segments.isEmpty

/-- `*manifest.begin()` guarded by non-emptiness. -/
def Manifest.firstSegment (m : Manifest) : Option SegmentMeta := m.segments.head?

/-- `partition_manifest::last_segment`. -/
def Manifest.last_segment (m : Manifest) : Option SegmentMeta := m.segments.getLast?

/-- Oracle for the remote store.  Spillover-manifest paths are derived
deterministically from the descriptor's range components
(`generate_spillover_manifest_path`), so both existence checks and
downloads of spillover manifests are keyed by those components. -/
structure RemoteEnv where
  main_download : DownloadResult × ManifestFormat × Manifest
  spill_exists : SegmentMeta → DownloadResult
  spill_download : SegmentMeta → DownloadResult × Manifest
  seg_exists : SegmentMeta → DownloadResult

/-- `anomalies_detector::download_spill_manifest`: succeeds with the
decoded manifest, any other result becomes `none`. -/
def download_spill_manifest (env : RemoteEnv) (path : SegmentMeta) :
    Option Manifest :=
  match env.spill_download path with
  | (DownloadResult.success, m) => some m
  | _ => none

/-- One iteration of `anomalies_detector::check_manifest`'s segment loop,
plus the recursion over the remaining segments.  `base` is the number of
remote operations issued before this `check_manifest` call started, so
`base + res.ops` keys the abort oracle at each cancellation checkpoint. -/
def check_manifest_go (env : RemoteEnv) (abortReq : Nat → Bool) (base : Nat)
    (segs : List SegmentMeta) (previous : Option SegmentMeta)
    (res : DetectResult) : DetectResult :=
  match segs with
  | [] => res
  | seg :: rest =>
    if abortReq (base + res.ops) then
      { res with status := ScrubStatus.part }
    else
      let res1 := { res with ops := res.ops + 1 }
      let res2 :=
        if env.seg_exists seg = DownloadResult.notfound then
          { res1 with detected :=
              { res1.detected with
                  missing_segments := insertUnique seg res1.detected.missing_segments } }
        else if env.seg_exists seg ≠ DownloadResult.success then
          { res1 with status := ScrubStatus.part }
        else res1
      let res3 := { res2 with detected :=
          { res2.detected with
              segment_metadata_anomalies := scrub_segment_meta seg previous res2.detected.segment_metadata_anomalies } }
      check_manifest_go env abortReq base rest (some seg) res3

/-- `anomalies_detector::check_manifest`. -/
def check_manifest (env : RemoteEnv) (abortReq : Nat → Bool) (base : Nat)
    (m : Manifest) : DetectResult :=
  check_manifest_go env abortReq base m.segments none {}

/-- State of the spillover existence-check loop in
`anomalies_detector::run`: the running anomaly accumulator, status, op
count and the deque of retained paths (head = front = most recently
pushed = nearest to the main manifest). -/
structure SpillScanState where
  detected : Anomalies
  status : ScrubStatus
  ops : Nat
  paths : List SegmentMeta
deriving DecidableEq, Repr

/-- One iteration of the spillover existence-check loop.  `dl_result` is
the result of the main-manifest download: the source's middle branch
compares `dl_result` (not the existence-check result) against success,
and `dl_result` is `success` on every path that reaches this loop. -/
def spill_scan_step (env : RemoteEnv) (dl_result : DownloadResult)
    (st : SpillScanState) (comp : SegmentMeta) : SpillScanState :=
  let st1 := { st with ops := st.ops + 1 }
  if env.spill_exists comp = DownloadResult.notfound then
    { st1 with detected :=
        { st1.detected with
            missing_spillover_manifests := insertUnique comp st1.detected.missing_spillover_manifests } }
  else if dl_result ≠ DownloadResult.success then
    { st1 with status := ScrubStatus.part }
  else
    { st1 with paths := comp :: st1.paths }

/-- Body of one iteration of the spillover download loop in
`anomalies_detector::run` (executed when the cancellation checkpoint did
not fire): download the spillover manifest, on success run the
cross-manifest adjacency check against the boundary segment, check the
spillover manifest, and compute the boundary segment for the next
iteration; on failure mark the source's `partial` status and drop the
boundary.  Returns the next boundary segment and the updated result. -/
def spill_step (env : RemoteEnv) (abortReq : Nat → Bool) (path : SegmentMeta)
    (boundary : Option SegmentMeta) (res : DetectResult) :
    Option SegmentMeta × DetectResult :=
  let res1 := { res with ops := res.ops + 1 }
  match download_spill_manifest env path with
  | some spill =>
    let res2 :=
      match spill.last_segment, boundary with
      | some last_in_spill, some b =>
        { res1 with detected :=
            { res1.detected with
                segment_metadata_anomalies := scrub_segment_meta b (some last_in_spill) res1.detected.segment_metadata_anomalies } }
      | _, _ => res1
    let res3 := res2.add (check_manifest env abortReq res2.ops spill)
    let boundary1 :=
      if !spill.isEmptyM then spill.firstSegment else boundary
    (boundary1, res3)
  | none => (none, { res1 with status := ScrubStatus.part })

/-- The spillover download loop of `anomalies_detector::run`, with its
per-iteration cancellation checkpoint (keyed by `res.ops`, the number of
remote operations issued so far). -/
def spill_loop (env : RemoteEnv) (abortReq : Nat → Bool)
    (paths : List SegmentMeta) (boundary : Option SegmentMeta)
    (res : DetectResult) : DetectResult :=
  match paths with
  | [] => res
  | p :: rest =>
    if abortReq res.ops then
      { res with status := ScrubStatus.part }
    else
      let step := spill_step env abortReq p boundary res
      spill_loop env abortReq rest step.1 step.2

/-- `anomalies_detector::run`. -/
def detector_run (env : RemoteEnv) (abortReq : Nat → Bool) : DetectResult :=
  match env.main_download with
  | (dl_result, format, manifest) =>
    let ops := 1
    if dl_result = DownloadResult.notfound then
      { status := ScrubStatus.full
        detected := { missing_partition_manifest := true }
        ops := ops }
    else if dl_result ≠ DownloadResult.success then
      { status := ScrubStatus.failed, detected := {}, ops := ops }
    else
      let st0 : SpillScanState :=
        { detected := {}, status := ScrubStatus.full, ops := ops, paths := [] }
      let st := manifest.spillover_map.foldl (spill_scan_step env dl_result) st0
      let detected :=
        if format = ManifestFormat.json ∧ st.paths.length > 0 then
          { st.detected with missing_partition_manifest := true }
        else st.detected
      let final0 : DetectResult :=
        { status := st.status, detected := detected, ops := st.ops }
      let final1 := final0.add (check_manifest env abortReq final0.ops manifest)
      spill_loop env abortReq st.paths manifest.firstSegment final1

end CloudStorage

namespace Archival

open CloudStorage

/-- `archival::run_status` (header not in this excerpt; the three values
are used verbatim by `scrubber::run`). -/
inductive RunStatus
  | ok
  | failed
  | skipped
deriving DecidableEq, Repr

/-- `scrubber::run_result`: status plus quota accounting.  Modelled from
the spec: `run_quota_t` is a signed integer budget, represented as `Int`;
`smax` below stands for the signed maximum of its underlying type. -/
structure RunResult where
  status : RunStatus
  consumed : Int
  remaining : Int
deriving DecidableEq, Repr

/-- The `consumed` computation of `scrubber::run`: the unsigned op count
saturates at the signed maximum `smax` of run_quota's underlying type. -/
def scrubber_consumed (smax : Nat) (ops : Nat) : Int :=
  if ops > smax then (smax : Int) else (ops : Int)

/-- The `remaining` computation of `scrubber::run`. -/
def scrubber_remaining (quota consumed : Int) : Int :=
  if consumed ≥ quota then 0 else quota - consumed

/-- Inputs of `scrubber::should_skip`, in evaluation order. -/
structure ScrubberGate where
  feature_active : Bool
  job_enabled : Bool
  config_enabled : Bool
  scheduler_due : Bool
deriving DecidableEq, Repr

/-- `scrubber::should_skip` (true = skip). -/
def should_skip (g : ScrubberGate) : Bool :=
  !g.feature_active || !g.job_enabled || !g.config_enabled || !g.scheduler_due

/-- External inputs of one `scrubber::run` invocation: the gate, the
detector's result, whether the abort source fired after detection, and
whether `archiver.process_anomalies` replicates successfully. -/
structure ScrubberEnv where
  gate : ScrubberGate
  detect_result : DetectResult
  abort_after_detect : Bool
  process_success : Bool

/-- Observable outcome of `scrubber::run`: the returned `run_result`,
whether `archiver.process_anomalies` was invoked, and whether
`_scheduler.pick_next_scrub_time()` was invoked. -/
structure ScrubberOutcome where
  result : RunResult
  process_called : Bool
  scheduler_advanced : Bool
deriving DecidableEq, Repr

/-- `scrubber::run`. -/
def scrubber_run (smax : Nat) (env : ScrubberEnv) (quota : Int) :
    ScrubberOutcome :=
  if should_skip env.gate then
    { result := { status := RunStatus.skipped, consumed := 0, remaining := quota }
      process_called := false
      scheduler_advanced := false }
  else
    let consumed := scrubber_consumed smax env.detect_result.ops
    let remaining := scrubber_remaining quota consumed
    if env.detect_result.status = ScrubStatus.failed then
      { result := { status := RunStatus.failed, consumed := consumed,
                    remaining := remaining }
        process_called := false
        scheduler_advanced := false }
    else if env.abort_after_detect then
      { result := { status := RunStatus.failed, consumed := consumed,
                    remaining := remaining }
        process_called := false
        scheduler_advanced := false }
    else
      { result :=
          { status :=
              if env.process_success then RunStatus.ok else RunStatus.failed
            consumed := consumed
            remaining := remaining }
        process_called := true
        scheduler_advanced := true }

end Archival

namespace CloudStorage

/-- The adjacency-checking pass over one manifest as the spec words it:
compare each segment against the immediately preceding one, threading
the accumulated anomaly set; it has no dependence on remote existence
checks. -/
def adjacency_anomalies : List SegmentMeta → Option SegmentMeta →
    List MetaAnomaly → List MetaAnomaly
  | [], _, acc => acc
  | s :: rest, prev, acc =>
    adjacency_anomalies rest (some s) (scrub_segment_meta s prev acc)

/-- The `missing_segments` accumulator produced by a run of
`check_manifest` over `segs` starting from `init`. -/
def missing_after (env : RemoteEnv) (segs : List SegmentMeta)
    (init : List SegmentMeta) : List SegmentMeta :=
  segs.foldl
    (fun acc s =>
      if env.seg_exists s = DownloadResult.notfound then insertUnique s acc
      else acc)
    init

/-- A segment whose existence check comes back neither `notfound` nor
`success` (a transient remote failure). -/
def seg_transient (env : RemoteEnv) (s : SegmentMeta) : Bool :=
  env.seg_exists s ≠ DownloadResult.notfound
    && env.seg_exists s ≠ DownloadResult.success

/-- Segment covering offsets 300-399 (kafka 300-400, timestamps
300-399). -/
def cA : SegmentMeta := ⟨300, 399, 300, 400, 300, 399⟩

/-- Segment covering offsets 0-99 whose next kafka offset is 300 (so
that against `cA` only the offset gap is anomalous). -/
def cB : SegmentMeta := ⟨0, 99, 0, 300, 0, 99⟩

/-- A spillover descriptor covering offsets 100-199. -/
def cC : SegmentMeta := ⟨100, 199, 100, 200, 100, 199⟩

/-- A spillover descriptor covering offsets 0-199 (the older one of the
two used in the boundary-tracking input). -/
def cS1 : SegmentMeta := ⟨0, 199, 0, 200, 0, 199⟩

/-- A spillover descriptor covering offsets 200-299 (the one nearest to
the main manifest in the boundary-tracking input). -/
def cS2 : SegmentMeta := ⟨200, 299, 200, 300, 200, 299⟩

/-- Remote environment in which the main manifest downloads successfully
(binary format, no segments, one spillover descriptor) and the
existence check of that descriptor fails transiently, while its
download would succeed with an empty manifest. -/
def envC1 : RemoteEnv :=
  { main_download :=
      (DownloadResult.success, ManifestFormat.serde,
        { segments := [], spillover_map := [cC] })
    spill_exists := fun _ => DownloadResult.failed
    spill_download := fun _ => (DownloadResult.success, {})
    seg_exists := fun _ => DownloadResult.success }

/-- Remote environment in which the main manifest downloads successfully
in the legacy JSON format, records one spillover descriptor, and that
descriptor's existence check returns `notfound`. -/
def envC2 : RemoteEnv :=
  { main_download :=
      (DownloadResult.success, ManifestFormat.json,
        { segments := [], spillover_map := [cC] })
    spill_exists := fun _ => DownloadResult.notfound
    spill_download := fun _ => (DownloadResult.success, {})
    seg_exists := fun _ => DownloadResult.success }

/-- Remote environment with two spillover manifests: the one nearest to
the main manifest (`cS2`) downloads as an empty manifest, the older one
(`cS1`) downloads with the single segment `cB`; the main manifest holds
the single segment `cA` and every existence check succeeds. -/
def envC3 : RemoteEnv :=
  { main_download :=
      (DownloadResult.success, ManifestFormat.serde,
        { segments := [cA], spillover_map := [cS1, cS2] })
    spill_exists := fun _ => DownloadResult.success
    spill_download := fun p =>
      if p = cS2 then (DownloadResult.success, {})
      else (DownloadResult.success, { segments := [cB] })
    seg_exists := fun _ => DownloadResult.success }

/-- Manifest with two segments, `cB` then `cA` (with an offset gap
between them). -/
def mC6 : Manifest := { segments := [cB, cA], spillover_map := [] }

/-- Remote environment in which segment `cB` is missing remotely and
everything else succeeds. -/
def envC6 : RemoteEnv :=
  { main_download := (DownloadResult.success, ManifestFormat.serde, mC6)
    spill_exists := fun _ => DownloadResult.success
    spill_download := fun _ => (DownloadResult.success, {})
    seg_exists := fun s =>
      if s = cB then DownloadResult.notfound else DownloadResult.success }

/-- Remote environment whose main-manifest download returns
`notfound`. -/
def envC7 : RemoteEnv :=
  { main_download := (DownloadResult.notfound, ManifestFormat.serde, {})
    spill_exists := fun _ => DownloadResult.success
    spill_download := fun _ => (DownloadResult.success, {})
    seg_exists := fun _ => DownloadResult.success }

/-- Remote environment whose main-manifest download fails
transiently. -/
def envC8 : RemoteEnv :=
  { main_download := (DownloadResult.failed, ManifestFormat.serde, {})
    spill_exists := fun _ => DownloadResult.success
    spill_download := fun _ => (DownloadResult.success, {})
    seg_exists := fun _ => DownloadResult.success }

/-- Remote environment used to witness the cancellation checkpoint of
the spillover download loop. -/
def envC10 : RemoteEnv :=
  { main_download :=
      (DownloadResult.success, ManifestFormat.serde,
        { segments := [], spillover_map := [cC] })
    spill_exists := fun _ => DownloadResult.success
    spill_download := fun _ => (DownloadResult.success, {})
    seg_exists := fun _ => DownloadResult.success }

end CloudStorage

namespace Archival

open CloudStorage

/-- Scrubber inputs for a non-skipped run whose detection pass failed
after 5 remote operations. -/
def envC9 : ScrubberEnv :=
  { gate :=
      { feature_active := true, job_enabled := true, config_enabled := true,
        scheduler_due := true }
    detect_result := { status := ScrubStatus.failed, detected := {}, ops := 5 }
    abort_after_detect := false
    process_success := true }

end Archival

namespace CloudStorage

theorem mem_insertUnique {α : Type} [DecidableEq α] (x y : α) (s : List α) :
    y ∈ insertUnique x s ↔ y = x ∨ y ∈ s := by
  unfold insertUnique
  split
  · constructor
    · exact Or.inr
    · rintro (rfl | hy)
      · assumption
      · exact hy
  · simp [List.mem_append, or_comm]

theorem merge_status_failed_iff (a b : ScrubStatus) :
    merge_status a b = ScrubStatus.failed ↔
      a = ScrubStatus.failed ∨ b = ScrubStatus.failed := by
  cases a <;> cases b <;> decide

/-- C1: in the source's spillover existence-check loop, the transient
failure branch compares the main-manifest download result (`dl_result`)
instead of the existence-check result, and `dl_result` is `success` on
every path that reaches the loop, so the branch is dead: on a transient
existence-check failure the status stays `full` (not the source's
`partial`), nothing is added to `missing_spillover_manifests`, and the
descriptor's path IS retained and later downloaded.  Evaluating the run
on such an input: one spillover descriptor with a transiently failing
existence check yields status `full` and 3 ops (main download,
existence check, spillover download) — the download of a path the claim
says must not be retained. -/
theorem C1_transient_spill_check_keeps_full_and_downloads :
    detector_run envC1 (fun _ => false) =
      { status := ScrubStatus.full, detected := {}, ops := 3 } := by
  rfl

/-- C2: a legacy-JSON main manifest with one recorded spillover
descriptor whose existence check returns `notfound` does NOT get the
`missing_partition_manifest` flag: the source tests the retained-path
deque (`spill_manifest_paths.size() > 0`), which is empty here, not the
spillover map. -/
theorem C2_json_with_unfound_spillover_not_flagged :
    detector_run envC2 (fun _ => false) =
      { status := ScrubStatus.full
        detected := { missing_spillover_manifests := [cC] }
        ops := 2 } := by
  rfl

/-- C3: after downloading an empty spillover manifest the boundary
segment is NOT dropped: the source's else-branch only logs.  First
conjunct: the loop step on the empty spillover manifest returns the old
boundary unchanged (`some cA`, not `none`).  Second conjunct: in the
full run the stale boundary is then compared against the next spillover
manifest's last segment, recording an offset-gap anomaly that the claim
says must not be produced. -/
theorem C3_empty_spill_manifest_keeps_stale_boundary :
    (spill_step envC3 (fun _ => false) cS2 (some cA)
        { status := ScrubStatus.full, detected := {}, ops := 4 }).1
      = some cA ∧
    (detector_run envC3 (fun _ => false)).detected.segment_metadata_anomalies
      = [⟨AnomalyKind.offset_gap, cB, cA⟩] := by
  exact ⟨rfl, rfl⟩

/-- C4: the status merge of `result::operator+=` satisfies: `failed`
absorbs any status on either side, `partial` (here `part`) absorbs
`full`, `full` merged with `full` is `full`, and the merge is
associative and commutative; hence once `failed` is produced no later
merge can downgrade it. -/
theorem C4_merge_status_algebra :
    (∀ x, merge_status ScrubStatus.failed x = ScrubStatus.failed) ∧
    (∀ x, merge_status x ScrubStatus.failed = ScrubStatus.failed) ∧
    merge_status ScrubStatus.part ScrubStatus.full = ScrubStatus.part ∧
    merge_status ScrubStatus.full ScrubStatus.full = ScrubStatus.full ∧
    (∀ a b c,
      merge_status (merge_status a b) c = merge_status a (merge_status b c)) ∧
    (∀ a b, merge_status a b = merge_status b a) := by
  refine ⟨?_, ?_, rfl, rfl, ?_, ?_⟩
  · intro x; cases x <;> rfl
  · intro x; cases x <;> rfl
  · intro a b c; cases a <;> cases b <;> cases c <;> rfl
  · intro a b; cases a <;> cases b <;> rfl

end CloudStorage

namespace Archival

open CloudStorage

/-- C5: the scrubber's `consumed` is the unsigned op count cast into the
signed quota domain saturating at the signed maximum `smax` (so it never
exceeds `smax` and never wraps negative), and `remaining` equals
`max 0 (quota - consumed)`, hence is never negative. -/
theorem C5_quota_accounting (smax ops : Nat) (quota : Int) :
    scrubber_consumed smax ops = min (ops : Int) (smax : Int) ∧
    scrubber_consumed smax ops ≤ (smax : Int) ∧
    0 ≤ scrubber_consumed smax ops ∧
    scrubber_remaining quota (scrubber_consumed smax ops)
      = max 0 (quota - scrubber_consumed smax ops) ∧
    0 ≤ scrubber_remaining quota (scrubber_consumed smax ops) := by
  unfold scrubber_consumed scrubber_remaining
  split
  · refine ⟨by omega, by omega, by omega, ?_, ?_⟩ <;> split <;> omega
  · refine ⟨by omega, by omega, by omega, ?_, ?_⟩ <;> split <;> omega

/-- C9: a non-skipped scrubber run whose detection result has status
`failed` returns `failed` with the computed consumed/remaining values,
does not invoke `process_anomalies`, and does not advance the
scheduler. -/
theorem C9_detection_failed_no_persist_no_advance (smax : Nat)
    (env : ScrubberEnv) (quota : Int)
    (hskip : should_skip env.gate = false)
    (hst : env.detect_result.status = ScrubStatus.failed) :
    scrubber_run smax env quota =
      { result :=
          { status := RunStatus.failed
            consumed := scrubber_consumed smax env.detect_result.ops
            remaining :=
              scrubber_remaining quota
                (scrubber_consumed smax env.detect_result.ops) }
        process_called := false
        scheduler_advanced := false } := by
  simp [scrubber_run, hskip, hst]

/-- Witness for C9 at a concrete non-skipped environment whose detection
failed after 5 ops, with signed maximum 100 and quota 7. -/
theorem C9_witness :
    scrubber_run 100 envC9 7 =
      { result := { status := RunStatus.failed, consumed := 5, remaining := 2 }
        process_called := false
        scheduler_advanced := false } := by
  have h := C9_detection_failed_no_persist_no_advance 100 envC9 7 rfl rfl
  simpa using h

end Archival

namespace CloudStorage

/-- C7: if the initial main-manifest fetch returns `notfound`, the
detector returns immediately with status `full`,
`missing_partition_manifest = true`, every other anomaly field empty and
`ops = 1` (each remote call increments `ops` at its call site, so
`ops = 1` means no further remote calls were issued). -/
theorem C7_main_manifest_notfound (env : RemoteEnv) (abortReq : Nat → Bool)
    (h : env.main_download.1 = DownloadResult.notfound) :
    detector_run env abortReq =
      { status := ScrubStatus.full
        detected :=
          { missing_partition_manifest := true
            missing_spillover_manifests := []
            missing_segments := []
            segment_metadata_anomalies := [] }
        ops := 1 } := by
  rcases henv : env.main_download with ⟨dl, fmt, m⟩
  rw [henv] at h
  simp only at h
  subst h
  simp [detector_run, henv]

/-- Witness for C7 at a concrete environment whose main-manifest fetch
returns `notfound`. -/
theorem C7_witness :
    detector_run envC7 (fun _ => false) =
      { status := ScrubStatus.full
        detected :=
          { missing_partition_manifest := true
            missing_spillover_manifests := []
            missing_segments := []
            segment_metadata_anomalies := [] }
        ops := 1 } :=
  C7_main_manifest_notfound envC7 (fun _ => false) rfl

/-- C10: if the cancellation checkpoint at the head of a spillover-chain
iteration observes an abort (the oracle is keyed by `res.ops`, the count
of remote calls issued so far), the loop performs no further spillover
downloads and returns the accumulated result with status `partial`
(`part`) and `ops` unchanged, i.e. exactly the remote calls issued
before the checkpoint. -/
theorem C10_abort_checkpoint_halts_spill_loop (env : RemoteEnv)
    (abortReq : Nat → Bool) (p : SegmentMeta) (rest : List SegmentMeta)
    (boundary : Option SegmentMeta) (res : DetectResult)
    (h : abortReq res.ops = true) :
    spill_loop env abortReq (p :: rest) boundary res
      = { res with status := ScrubStatus.part } := by
  simp [spill_loop, h]

/-- Witness for C10: with an abort oracle that is already signalled, the
spillover loop on a nonempty path list returns the accumulated result
(5 ops here) with status `part` and no additional ops. -/
theorem C10_witness :
    spill_loop envC10 (fun _ => true) [cC] none
        { status := ScrubStatus.full, detected := {}, ops := 5 }
      = { status := ScrubStatus.part, detected := {}, ops := 5 } :=
  C10_abort_checkpoint_halts_spill_loop envC10 (fun _ => true) cC [] none
    { status := ScrubStatus.full, detected := {}, ops := 5 } rfl

end CloudStorage

namespace CloudStorage

theorem seg_transient_iff (env : RemoteEnv) (s : SegmentMeta) :
    seg_transient env s = true ↔
      env.seg_exists s ≠ DownloadResult.notfound ∧
      env.seg_exists s ≠ DownloadResult.success := by
  simp [seg_transient]

theorem check_manifest_go_spec (env : RemoteEnv) (a : Nat → Bool) (base : Nat)
    (segs : List SegmentMeta) (prev : Option SegmentMeta) (res : DetectResult)
    (ha : ∀ n, a n = false) :
    check_manifest_go env a base segs prev res =
      { status :=
          if segs.any (seg_transient env) then ScrubStatus.part else res.status
        detected :=
          { res.detected with
              missing_segments :=
                missing_after env segs res.detected.missing_segments
              segment_metadata_anomalies :=
                adjacency_anomalies segs prev
                  res.detected.segment_metadata_anomalies }
        ops := res.ops + segs.length } := by
  induction segs generalizing prev res with
  | nil => simp [check_manifest_go, missing_after, adjacency_anomalies]
  | cons s rest ih =>
    rw [check_manifest_go, ha (base + res.ops)]
    simp only [Bool.false_eq_true, if_false]
    rw [ih]
    rcases hse : env.seg_exists s with h1 | h1 | h1 | h1 <;>
      simp_all [missing_after, adjacency_anomalies, List.any_cons,
        seg_transient, hse] <;> omega

end CloudStorage

namespace CloudStorage

theorem mem_missing_after (env : RemoteEnv) (segs : List SegmentMeta)
    (init : List SegmentMeta) (s : SegmentMeta) :
    s ∈ missing_after env segs init ↔
      s ∈ init ∨ (s ∈ segs ∧ env.seg_exists s = DownloadResult.notfound) := by
  induction segs generalizing init with
  | nil => simp [missing_after]
  | cons t rest ih =>
    by_cases ht : env.seg_exists t = DownloadResult.notfound
    · have hts : s = t → env.seg_exists s = DownloadResult.notfound := by
        intro h; rw [h]; exact ht
      have hfold : missing_after env (t :: rest) init
          = missing_after env rest (insertUnique t init) := by
        simp [missing_after, List.foldl_cons, ht]
      rw [hfold, ih (insertUnique t init)]
      simp only [mem_insertUnique, List.mem_cons]
      tauto
    · have hts : s = t → ¬env.seg_exists s = DownloadResult.notfound := by
        intro h; rw [h]; exact ht
      have hfold : missing_after env (t :: rest) init
          = missing_after env rest init := by
        simp [missing_after, List.foldl_cons, ht]
      rw [hfold, ih init]
      simp only [List.mem_cons]
      tauto

/-- C6: with no cancellation observed, `check_manifest` over a manifest
satisfies: a segment is in `missing_segments` iff it is a segment of the
manifest whose existence check returned `notfound`; the status is
`partial` (`part`) iff some segment's existence check returned neither
`success` nor `notfound` (transient failure, which records no anomaly);
and the recorded segment-metadata anomalies are exactly the adjacency
pass over consecutive segments, a value independent of the existence
checks; each segment costs exactly one remote op. -/
theorem C6_check_manifest_characterisation (env : RemoteEnv) (a : Nat → Bool)
    (base : Nat) (m : Manifest) (ha : ∀ n, a n = false) :
    (∀ s, s ∈ (check_manifest env a base m).detected.missing_segments ↔
        s ∈ m.segments ∧ env.seg_exists s = DownloadResult.notfound) ∧
    ((check_manifest env a base m).status = ScrubStatus.part ↔
        ∃ s ∈ m.segments, env.seg_exists s ≠ DownloadResult.notfound ∧
          env.seg_exists s ≠ DownloadResult.success) ∧
    (check_manifest env a base m).detected.segment_metadata_anomalies
        = adjacency_anomalies m.segments none [] ∧
    (check_manifest env a base m).ops = m.segments.length := by
  unfold check_manifest
  rw [check_manifest_go_spec env a base m.segments none {} ha]
  refine ⟨?_, ?_, rfl, by simp⟩
  · intro s
    simpa using mem_missing_after env m.segments [] s
  · simp only [List.any_eq_true, seg_transient_iff]
    split
    · simpa
    · simp_all

/-- Witness for C6 at a concrete manifest: segment `cB` is missing
remotely and lands in `missing_segments`. -/
theorem C6_witness :
    cB ∈ (check_manifest envC6 (fun _ => false) 0 mC6).detected.missing_segments :=
  ((C6_check_manifest_characterisation envC6 (fun _ => false) 0 mC6
      (fun _ => rfl)).1 cB).mpr (by decide)

end CloudStorage

namespace CloudStorage

theorem check_manifest_go_ne_failed (env : RemoteEnv) (a : Nat → Bool)
    (base : Nat) (segs : List SegmentMeta) (prev : Option SegmentMeta)
    (res : DetectResult) (h : res.status ≠ ScrubStatus.failed) :
    (check_manifest_go env a base segs prev res).status
      ≠ ScrubStatus.failed := by
  induction segs generalizing prev res with
  | nil => simpa [check_manifest_go] using h
  | cons s rest ih =>
    rw [check_manifest_go]
    split
    · simp
    · apply ih
      dsimp only
      split_ifs <;> simp_all

theorem check_manifest_ne_failed (env : RemoteEnv) (a : Nat → Bool)
    (base : Nat) (m : Manifest) :
    (check_manifest env a base m).status ≠ ScrubStatus.failed :=
  check_manifest_go_ne_failed env a base m.segments none {} (by simp)

theorem spill_scan_ne_failed (env : RemoteEnv) (dl : DownloadResult)
    (l : List SegmentMeta) (st : SpillScanState)
    (h : st.status ≠ ScrubStatus.failed) :
    (l.foldl (spill_scan_step env dl) st).status ≠ ScrubStatus.failed := by
  induction l generalizing st with
  | nil => simpa using h
  | cons c rest ih =>
    rw [List.foldl_cons]
    apply ih
    unfold spill_scan_step
    split_ifs <;> simp_all

theorem spill_step_ne_failed (env : RemoteEnv) (a : Nat → Bool)
    (p : SegmentMeta) (boundary : Option SegmentMeta) (res : DetectResult)
    (h : res.status ≠ ScrubStatus.failed) :
    (spill_step env a p boundary res).2.status ≠ ScrubStatus.failed := by
  unfold spill_step
  cases download_spill_manifest env p with
  | none => simp
  | some spill =>
    dsimp only
    intro hc
    rw [DetectResult.add, merge_status_failed_iff] at hc
    rcases hc with hc | hc
    · revert hc
      split <;> simpa using h
    · exact check_manifest_ne_failed env a _ spill hc

theorem spill_loop_ne_failed (env : RemoteEnv) (a : Nat → Bool)
    (paths : List SegmentMeta) (boundary : Option SegmentMeta)
    (res : DetectResult) (h : res.status ≠ ScrubStatus.failed) :
    (spill_loop env a paths boundary res).status ≠ ScrubStatus.failed := by
  induction paths generalizing boundary res with
  | nil => simpa [spill_loop] using h
  | cons p rest ih =>
    rw [spill_loop]
    split
    · simp
    · exact ih _ _ (spill_step_ne_failed env a p boundary res h)

/-- C8: the detector's returned status is `failed` iff the initial
main-manifest fetch returned a failure other than `notfound`; in that
case the result is status `failed`, empty anomaly set, `ops = 1` (no
further remote calls); no later step (spillover scan, `check_manifest`,
spillover loop, result merging) can introduce `failed` on its own. -/
theorem C8_failed_iff_initial_fetch_failed (env : RemoteEnv) (a : Nat → Bool) :
    ((detector_run env a).status = ScrubStatus.failed ↔
        env.main_download.1 ≠ DownloadResult.success ∧
        env.main_download.1 ≠ DownloadResult.notfound) ∧
    (env.main_download.1 ≠ DownloadResult.success →
      env.main_download.1 ≠ DownloadResult.notfound →
      detector_run env a =
        { status := ScrubStatus.failed, detected := {}, ops := 1 }) := by
  rcases henv : env.main_download with ⟨dl, fmt, m⟩
  have hrun : detector_run env a
      = match (dl, fmt, m) with
        | (dl_result, format, manifest) =>
          let ops := 1
          if dl_result = DownloadResult.notfound then
            { status := ScrubStatus.full
              detected := { missing_partition_manifest := true }
              ops := ops }
          else if dl_result ≠ DownloadResult.success then
            { status := ScrubStatus.failed, detected := {}, ops := ops }
          else
            let st0 : SpillScanState :=
              { detected := {}, status := ScrubStatus.full, ops := ops,
                paths := [] }
            let st := manifest.spillover_map.foldl
              (spill_scan_step env dl_result) st0
            let detected :=
              if format = ManifestFormat.json ∧ st.paths.length > 0 then
                { st.detected with missing_partition_manifest := true }
              else st.detected
            let final0 : DetectResult :=
              { status := st.status, detected := detected, ops := st.ops }
            let final1 := final0.add
              (check_manifest env a final0.ops manifest)
            spill_loop env a st.paths manifest.firstSegment final1 := by
    rw [detector_run, henv]
  cases dl with
  | success =>
    have hne : (detector_run env a).status ≠ ScrubStatus.failed := by
      rw [hrun]
      dsimp only
      rw [if_neg (by decide), if_neg (by decide)]
      apply spill_loop_ne_failed
      intro hc
      rw [DetectResult.add, merge_status_failed_iff] at hc
      rcases hc with hc | hc
      · exact spill_scan_ne_failed env _ m.spillover_map _ (by decide) hc
      · exact check_manifest_ne_failed env a _ m hc
    refine ⟨⟨fun hf => absurd hf hne, ?_⟩, ?_⟩
    · rintro ⟨hs, _⟩; exact absurd rfl hs
    · intro hs _; exact absurd rfl hs
  | notfound =>
    refine ⟨⟨fun hf => ?_, ?_⟩, ?_⟩
    · rw [hrun] at hf; simp at hf
    · rintro ⟨_, hn⟩; exact absurd rfl hn
    · intro _ hn; exact absurd rfl hn
  | timedout =>
    refine ⟨⟨fun _ => ⟨by simp, by simp⟩, fun _ => ?_⟩, fun _ _ => ?_⟩ <;>
      · rw [hrun]; rfl
  | failed =>
    refine ⟨⟨fun _ => ⟨by simp, by simp⟩, fun _ => ?_⟩, fun _ _ => ?_⟩ <;>
      · rw [hrun]; rfl

/-- Witness for C8 at a concrete environment whose main-manifest fetch
fails transiently. -/
theorem C8_witness :
    detector_run envC8 (fun _ => false)
      = { status := ScrubStatus.failed, detected := {}, ops := 1 } :=
  (C8_failed_iff_initial_fetch_failed envC8 (fun _ => false)).2
    (by decide) (by decide)

end CloudStorage
